import Mathlib

/-!
# Verification of the maileroo-go-sdk request-construction layer

Shallow embedding of the Go sources `maileroo/client.go`,
`maileroo/attachment.go` and the email-address model.  Go strings are
modelled as their rune sequences (`List Char`), Go byte slices as
`List Nat` with every element below 256, Go `nil`-able pointers and
maps as `Option`, and `map[string]any` payloads as association lists
over an explicit value type.  Fallible Go functions returning
`(T, error)` become `Except GoString T`.
-/

namespace Maileroo

/-- A Go string, modelled as its sequence of runes (Unicode code points). -/
abbrev GoString := List Char

/-- Convert a Lean string literal to the `GoString` model. -/
def gs (s : String) : GoString := s.toList

/-- Go `unicode.IsSpace`: the Latin-1 white space characters together with
the Unicode `White_Space` code points. -/
def goIsSpace (c : Char) : Bool :=
  let n := c.toNat
  decide ((9 ≤ n ∧ n ≤ 13) ∨ n = 32 ∨ n = 0x85 ∨ n = 0xA0 ∨ n = 0x1680 ∨
    (0x2000 ≤ n ∧ n ≤ 0x200A) ∨ n = 0x2028 ∨ n = 0x2029 ∨ n = 0x202F ∨
    n = 0x205F ∨ n = 0x3000)

/-- Go `strings.TrimSpace`: drop white space from both ends. -/
def trimSpace (s : GoString) : GoString :=
  ((s.dropWhile goIsSpace).reverse.dropWhile goIsSpace).reverse

/-- `runeLen` from `client.go`: `len([]rune(s))`.  On the rune-sequence
model of strings this is the list length. -/
def runeLen (s : GoString) : Nat := s.length

/-- Membership of a character in the class `[0-9a-fA-F]`. -/
def isHexChar (c : Char) : Bool :=
  let n := c.toNat
  decide ((48 ≤ n ∧ n ≤ 57) ∨ (97 ≤ n ∧ n ≤ 102) ∨ (65 ≤ n ∧ n ≤ 70))

/-- The regular expression `^[0-9a-fA-F]{24}$` (`refIDRe` in `client.go`):
exactly 24 hexadecimal characters. -/
def matchRefID (s : GoString) : Bool :=
  decide (s.length = 24) && s.all isHexChar

/-- The lowercase hex digit table used by Go `encoding/hex`. -/
def hexTable : GoString := gs "0123456789abcdef"

/-- One lowercase hex digit. -/
def hexDigit (n : Nat) : Char := hexTable.getD n '0'

/-- Go `hex.EncodeToString`: each byte `v` becomes the two characters
`hextable[v>>4]` and `hextable[v&0x0f]`. -/
def hexEncodeToString (b : List Nat) : GoString :=
  b.flatMap (fun v => [hexDigit (v / 16), hexDigit (v % 16)])

/-- The standard base64 alphabet used by Go `base64.StdEncoding`. -/
def b64Alphabet : GoString :=
  gs "ABCDEFGHIJKLMNOPQRSTUVWXYZabcdefghijklmnopqrstuvwxyz0123456789+/"

/-- The character encoding the 6-bit value `n`. -/
def b64Char (n : Nat) : Char := b64Alphabet.getD n '='

/-- The 6-bit value of an alphabet character, `none` for characters
outside the alphabet (including `=`). -/
def b64Index (c : Char) : Option Nat := b64Alphabet.indexOf? c

/-- Go `base64.StdEncoding.EncodeToString`: 3-byte groups become 4
characters; a 1- or 2-byte tail is padded with `=`. -/
def base64EncodeToString : List Nat → GoString
  | b0 :: b1 :: b2 :: rest =>
      b64Char (b0 / 4) :: b64Char ((b0 % 4) * 16 + b1 / 16) ::
      b64Char ((b1 % 16) * 4 + b2 / 64) :: b64Char (b2 % 64) ::
      base64EncodeToString rest
  | [b0, b1] =>
      [b64Char (b0 / 4), b64Char ((b0 % 4) * 16 + b1 / 16),
       b64Char ((b1 % 16) * 4), '=']
  | [b0] =>
      [b64Char (b0 / 4), b64Char ((b0 % 4) * 16), '=', '=']
  | [] => []

/-- Decoding of 4-character base64 quanta after newline filtering,
following Go's (non-strict) standard decoder: `=` padding may occur only
in the final quantum, at the last one or two positions, and the unused
trailing bits of the last symbol are ignored. -/
def base64DecodeQuanta : GoString → Option (List Nat)
  | [] => some []
  | c0 :: c1 :: c2 :: c3 :: rest =>
      match b64Index c0, b64Index c1 with
      | some n0, some n1 =>
          if c2 = '=' then
            if c3 = '=' ∧ rest = [] then
              some [n0 * 4 + n1 / 16]
            else none
          else
            match b64Index c2 with
            | some n2 =>
                if c3 = '=' then
                  if rest = [] then
                    some [n0 * 4 + n1 / 16, (n1 % 16) * 16 + n2 / 4]
                  else none
                else
                  match b64Index c3 with
                  | some n3 =>
                      (base64DecodeQuanta rest).map
                        (fun tl => (n0 * 4 + n1 / 16) :: ((n1 % 16) * 16 + n2 / 4) ::
                          ((n2 % 4) * 64 + n3) :: tl)
                  | none => none
            | none => none
      | _, _ => none
  | _ => none

/-- Go `base64.StdEncoding.DecodeString`: carriage returns and newlines
are ignored anywhere in the input; the rest must be well-formed padded
quanta.  `none` models the Go decode error. -/
def base64DecodeString (s : GoString) : Option (List Nat) :=
  base64DecodeQuanta (s.filter (fun c => !(c = '\n' ∨ c = '\r')))

/-! ## Email address model (`email_address.go`) -/

/-- `EmailAddress`: an address string with an optional display name
(`nil` pointer modelled as `none`). -/
structure EmailAddress where
  Address : GoString
  DisplayName : Option GoString
deriving DecidableEq, Repr

/-- `NewEmail`: trims the address; keeps the display name only when it is
non-blank, trimmed. -/
def NewEmail (address displayName : GoString) : EmailAddress :=
  { Address := trimSpace address
    DisplayName :=
      if trimSpace displayName = [] then none else some (trimSpace displayName) }

/-- `EmailAddress.ToJSON`: the wire object `{address}` or
`{address, display_name}`. -/
def EmailAddress.ToJSON (e : EmailAddress) : List (GoString × GoString) :=
  match e.DisplayName with
  | none => [(gs "address", e.Address)]
  | some dn => [(gs "address", e.Address), (gs "display_name", dn)]

/-- `emailAddressesToJSON`: serialize a list of addresses. -/
def emailAddressesToJSON (addrs : List EmailAddress) :
    List (List (GoString × GoString)) :=
  addrs.map EmailAddress.ToJSON

/-! ## Attachment model (`attachment.go`)

`http.DetectContentType` is Go-standard-library content sniffing, an
external collaborator of this package; it is passed in as the `sniff`
parameter wherever the source calls it. -/

/-- `Attachment`: file name, content type, base64 content, inline flag. -/
structure Attachment where
  FileName : GoString
  ContentType : GoString
  Content : GoString
  Inline : Bool
deriving DecidableEq, Repr

/-- `detectMimeFromBuffer`: run the sniffer and cut any `;`-separated
parameters (only when the `;` is not the first character). -/
def detectMimeFromBuffer (sniff : List Nat → GoString) (buf : List Nat) :
    GoString :=
  let mt := sniff buf
  if mt = [] then []
  else
    match mt.findIdx? (fun c => c = ';') with
    | some i => if 0 < i then trimSpace (mt.take i) else mt
    | none => mt

/-- `NewAttachment`: the low-level constructor; requires a non-blank file
name and non-blank, decodable base64 content; defaults a blank content
type to `application/octet-stream`. -/
def NewAttachment (fileName contentB64 contentType : GoString) (inline : Bool) :
    Except GoString Attachment :=
  if trimSpace fileName = [] then
    .error (gs "file_name is required")
  else if trimSpace contentB64 = [] then
    .error (gs "content must be a non-empty base64 string")
  else
    match base64DecodeString contentB64 with
    | none => .error (gs "invalid base64 content provided")
    | some _ =>
        let ct := if trimSpace contentType = [] then
            gs "application/octet-stream" else contentType
        .ok { FileName := fileName, ContentType := ct,
              Content := contentB64, Inline := inline }

/-- `AttachmentFromContent`: base64-encode raw bytes; infer the content
type by sniffing when it is blank. -/
def AttachmentFromContent (sniff : List Nat → GoString)
    (fileName : GoString) (content : List Nat) (contentType : GoString)
    (inline : Bool) : Except GoString Attachment :=
  if trimSpace fileName = [] then
    .error (gs "file_name is required")
  else
    let ct := if trimSpace contentType = [] then
        (let d := detectMimeFromBuffer sniff content
         if d ≠ [] then d else gs "application/octet-stream")
      else contentType
    .ok { FileName := fileName, ContentType := ct,
          Content := base64EncodeToString content, Inline := inline }

/-- `AttachmentFromBase64Content`: decode to check validity and to sniff
the content type when blank, then delegate to `NewAttachment`. -/
def AttachmentFromBase64Content (sniff : List Nat → GoString)
    (fileName contentB64 contentType : GoString) (inline : Bool) :
    Except GoString Attachment :=
  match base64DecodeString contentB64 with
  | none => .error (gs "invalid base64 content provided")
  | some raw =>
      let ct := if trimSpace contentType = [] then
          (let d := detectMimeFromBuffer sniff raw
           if d ≠ [] then d else gs "application/octet-stream")
        else contentType
      NewAttachment fileName contentB64 ct inline

/-- `(*Attachment).validate`: the send-time checks — file name, content
and content type must each be non-blank after trimming. -/
def Attachment.validate (a : Attachment) : Except GoString Unit :=
  if trimSpace a.FileName = [] then
    .error (gs "attachment.file_name is required")
  else if trimSpace a.Content = [] then
    .error (gs "attachment.content_base64 must be a non-empty base64 string")
  else if trimSpace a.ContentType = [] then
    .error (gs "attachment.content_type is required")
  else .ok ()

/-! ## Dynamic values and validators (`client.go`) -/

/-- A dynamic (`any`) value stored in an associative map (tags/headers).
Go's `int/int32/int64/uint/uint32/uint64` cases collapse to `aInt`;
a float is carried with its `fmt.Sprintf("%v", ...)` rendering, as is any
other (unacceptable) dynamic value. -/
inductive AssocValue where
  | aStr (s : GoString)
  | aBool (b : Bool)
  | aInt (n : Int)
  | aFloat (rendered : GoString)
  | aOther (rendered : GoString)
deriving DecidableEq, Repr

/-- `AssocMap = map[string]AssocValue`, modelled as an association list
(`nil` maps become `none` at the use sites). -/
abbrev AssocMap := List (GoString × AssocValue)

/-- An arbitrary (possibly nested) dynamic JSON-like value, as used for
template data. -/
inductive GoAny where
  | aNull
  | aStr (s : GoString)
  | aBool (b : Bool)
  | aNum (n : Int)
  | aList (l : List GoAny)
  | aMap (m : List (GoString × GoAny))
deriving Repr

/-- `map[string]any` template data. -/
abbrev TemplateData := List (GoString × GoAny)

/-- `isAcceptableAssocValue`: string, bool and numeric values pass. -/
def isAcceptableAssocValue : AssocValue → Bool
  | .aStr _ => true
  | .aBool _ => true
  | .aInt _ => true
  | .aFloat _ => true
  | .aOther _ => false

/-- `valLen`: rune length of the stringified value (`true`/`false` have
lengths 4/5; numbers and other values use their `%v` rendering). -/
def valLen : AssocValue → Nat
  | .aStr s => runeLen s
  | .aBool b => if b then 4 else 5
  | .aInt n => (toString n).toList.length
  | .aFloat r => r.length
  | .aOther r => r.length

/-- `validateAssociativeMap`: every key non-blank and at most 128 runes;
every value of an acceptable primitive type and stringified to at most
768 runes. -/
def validateAssociativeMap (m : AssocMap) (label : GoString) :
    Except GoString Unit :=
  match m with
  | [] => .ok ()
  | (k, v) :: rest =>
      if trimSpace k = [] then
        .error (label ++ gs " keys must be non-empty strings")
      else if 128 < runeLen k then
        .error (label ++ gs " key must not exceed 128 characters")
      else if isAcceptableAssocValue v = false then
        .error (label ++
          gs " must be an associative map with string keys and values (string/number/bool)")
      else if 768 < valLen v then
        .error (label ++ gs " value must not exceed 768 characters")
      else validateAssociativeMap rest label

/-- `validateTemplateData`: only requires every key to be non-blank. -/
def validateTemplateData (m : TemplateData) : Except GoString Unit :=
  match m with
  | [] => .ok ()
  | (k, _) :: rest =>
      if trimSpace k = [] then
        .error (gs "template_data keys must be strings and non-empty")
      else validateTemplateData rest

/-- `validateReferenceID`: no surrounding whitespace and an exact match
of `^[0-9a-fA-F]{24}$`. -/
def validateReferenceID (s : GoString) : Except GoString Unit :=
  if s ≠ trimSpace s then
    .error (gs "reference_id must not contain whitespace")
  else if matchRefID s = false then
    .error (gs "reference_id must be a 24-character hexadecimal string")
  else .ok ()

/-- `requireSubject`: non-blank after trimming and at most 255 runes. -/
def requireSubject (s : GoString) : Except GoString Unit :=
  if trimSpace s = [] then
    .error (gs "subject must be a non-empty string with a maximum length of 255 characters")
  else if 255 < runeLen s then
    .error (gs "subject must be a non-empty string with a maximum length of 255 characters")
  else .ok ()

/-- `(*Client).GetReferenceID`: hex-encode 12 random bytes.  Both the
`crypto/rand` branch and the `math/rand` fallback fill the same 12-byte
buffer with arbitrary byte values; the buffer is the `randBytes`
parameter. -/
def GetReferenceID (randBytes : List Nat) : GoString :=
  hexEncodeToString randBytes

/-! ## Payload model

Go builds `map[string]any` payloads; the model is an association list
whose insert (`setKey`) overwrites an existing key in place.  The value
type enumerates exactly the shapes the source stores. -/

/-- A value stored in an outgoing payload map.  `vStrPtr none` is a `nil`
`*string`, which `encoding/json` serializes as `null`; `vTime` models a
`time.Time` as an instant. -/
inductive PayloadValue where
  | vStr (s : GoString)
  | vStrPtr (s : Option GoString)
  | vBool (b : Bool)
  | vInt (n : Int)
  | vIntPtr (n : Option Int)
  | vStrMap (m : List (GoString × GoString))
  | vStrMapList (l : List (List (GoString × GoString)))
  | vAssocMap (m : AssocMap)
  | vTemplateData (m : TemplateData)
  | vAttachments (l : List Attachment)
  | vTime (t : Int)
  | vItems (l : List (List (GoString × PayloadValue)))
deriving Repr

/-- A `map[string]any` payload. -/
abbrev Payload := List (GoString × PayloadValue)

/-- Map insertion: overwrite the binding when the key is present,
append otherwise. -/
def setKey (m : Payload) (k : GoString) (v : PayloadValue) : Payload :=
  match m with
  | [] => [(k, v)]
  | (k', v') :: rest =>
      if k' = k then (k, v) :: rest else (k', v') :: setKey rest k v

/-- Map lookup. -/
def lookupKey (m : Payload) (k : GoString) : Option PayloadValue :=
  match m with
  | [] => none
  | (k', v) :: rest => if k' = k then some v else lookupKey rest k

/-- Key presence. -/
def hasKey (m : Payload) (k : GoString) : Bool := (lookupKey m k).isSome

/-! ## Request types (`client.go`) -/

/-- `BasicEmailData` (Go `nil` pointers, maps and slices become `Option`
and lists; `time.Time` becomes an instant). -/
structure BasicEmailData where
  From : EmailAddress
  To : List EmailAddress
  Cc : List EmailAddress
  Bcc : List EmailAddress
  ReplyTo : List EmailAddress
  Subject : GoString
  HTML : Option GoString
  Plain : Option GoString
  Tracking : Option Bool
  Tags : Option AssocMap
  Headers : Option AssocMap
  Attachments : List Attachment
  ScheduledAt : Option Int
  ReferenceID : Option GoString

/-- `BulkMessage`. -/
structure BulkMessage where
  From : EmailAddress
  To : List EmailAddress
  Cc : List EmailAddress
  Bcc : List EmailAddress
  ReplyTo : List EmailAddress
  ReferenceID : Option GoString
  TemplateData : Option TemplateData

/-- `BulkEmailData`. -/
structure BulkEmailData where
  Subject : GoString
  HTML : Option GoString
  Plain : Option GoString
  TemplateID : Option Int
  Tracking : Option Bool
  Tags : Option AssocMap
  Headers : Option AssocMap
  Attachments : List Attachment
  Messages : List BulkMessage

/-- `BasePayload`: the shared argument of `buildBasePayload`. -/
structure BasePayload where
  Subject : GoString
  From : EmailAddress
  To : List EmailAddress
  Cc : List EmailAddress
  Bcc : List EmailAddress
  ReplyTo : List EmailAddress
  Tracking : Option Bool
  Tags : Option AssocMap
  Headers : Option AssocMap
  Attachments : List Attachment
  ScheduledAt : Option Int
  ReferenceID : Option GoString

/-! ## Request builders (`client.go`)

Randomness (`crypto/rand` / `math/rand`) is supplied from outside: the
single-send builder takes the 12-byte buffer used when no reference id
is given, the bulk normalizer takes one buffer per message index. -/

/-- Validate every attachment in order (loop bodies of
`buildBasePayload` / `SendBulkEmails`). -/
def validateAttachments : List Attachment → Except GoString Unit
  | [] => .ok ()
  | a :: rest =>
      match a.validate with
      | .error e => .error e
      | .ok _ => validateAttachments rest

/-- `(*Client).buildBasePayload`: subject and recipient checks, then the
shared payload assembly; the reference id is the caller's (validated) or
a generated one. -/
def buildBasePayload (randBytes : List Nat) (payload : BasePayload) :
    Except GoString Payload :=
  match requireSubject payload.Subject with
  | .error e => .error e
  | .ok _ =>
  if payload.To.length = 0 then
    .error (gs "field to is required and must have at least one recipient")
  else
    let r := setKey [] (gs "subject") (.vStr payload.Subject)
    let r := setKey r (gs "from") (.vStrMap payload.From.ToJSON)
    let r := setKey r (gs "to") (.vStrMapList (emailAddressesToJSON payload.To))
    let r := if 0 < payload.Cc.length then
        setKey r (gs "cc") (.vStrMapList (emailAddressesToJSON payload.Cc)) else r
    let r := if 0 < payload.Bcc.length then
        setKey r (gs "bcc") (.vStrMapList (emailAddressesToJSON payload.Bcc)) else r
    let r := if 0 < payload.ReplyTo.length then
        setKey r (gs "reply_to") (.vStrMapList (emailAddressesToJSON payload.ReplyTo)) else r
    let r := match payload.Tracking with
      | some t => setKey r (gs "tracking") (.vBool t)
      | none => r
    let step : Except GoString Payload :=
      match payload.Tags with
      | none => .ok r
      | some m =>
          match validateAssociativeMap m (gs "tags") with
          | .error e => .error e
          | .ok _ => .ok (setKey r (gs "tags") (.vAssocMap m))
    match step with
    | .error e => .error e
    | .ok r =>
    let step : Except GoString Payload :=
      match payload.Headers with
      | none => .ok r
      | some m =>
          match validateAssociativeMap m (gs "headers") with
          | .error e => .error e
          | .ok _ => .ok (setKey r (gs "headers") (.vAssocMap m))
    match step with
    | .error e => .error e
    | .ok r =>
    let step : Except GoString Payload :=
      if 0 < payload.Attachments.length then
        match validateAttachments payload.Attachments with
        | .error e => .error e
        | .ok _ => .ok (setKey r (gs "attachments") (.vAttachments payload.Attachments))
      else .ok r
    match step with
    | .error e => .error e
    | .ok r =>
    let r := match payload.ScheduledAt with
      | some t => setKey r (gs "scheduled_at") (.vTime t)
      | none => r
    match payload.ReferenceID with
    | some rid =>
        match validateReferenceID rid with
        | .error e => .error e
        | .ok _ => .ok (setKey r (gs "reference_id") (.vStr rid))
    | none => .ok (setKey r (gs "reference_id") (.vStr (GetReferenceID randBytes)))

/-- The payload-construction prefix of `(*Client).SendBasicEmail`
(everything before the network call): build the base payload, require a
body, and store both body pointers. -/
def SendBasicEmailPayload (randBytes : List Nat) (data : BasicEmailData) :
    Except GoString Payload :=
  match buildBasePayload randBytes
      { Subject := data.Subject, From := data.From, To := data.To,
        Cc := data.Cc, Bcc := data.Bcc, ReplyTo := data.ReplyTo,
        Tracking := data.Tracking, Tags := data.Tags, Headers := data.Headers,
        Attachments := data.Attachments, ScheduledAt := data.ScheduledAt,
        ReferenceID := data.ReferenceID } with
  | .error e => .error e
  | .ok basePayload =>
      if data.HTML = none ∧ data.Plain = none then
        .error (gs "either html or plain body is required")
      else
        .ok (setKey (setKey basePayload (gs "html") (.vStrPtr data.HTML))
          (gs "plain") (.vStrPtr data.Plain))

/-- The body-mode checks of `SendBulkEmails` (`client.go` lines
275-285): at least one of html/plain/template id, and no template id
together with html or plain. -/
def bulkBodyModeCheck (data : BulkEmailData) : Except GoString Unit :=
  if (¬data.HTML.isSome ∧ ¬data.Plain.isSome) ∧ ¬data.TemplateID.isSome then
    .error (gs "you must provide either html, plain, or template_id")
  else if data.TemplateID ≠ none ∧ (data.HTML.isSome ∨ data.Plain.isSome) then
    .error (gs "template_id cannot be combined with html or plain")
  else .ok ()

/-- The message-count checks of `SendBulkEmails` (`client.go` lines
287-293): a non-empty list of at most 500 messages. -/
def bulkMessageCountCheck (msgs : List BulkMessage) : Except GoString Unit :=
  if msgs.length = 0 then
    .error (gs "messages must be a non-empty array")
  else if 500 < msgs.length then
    .error (gs "messages cannot contain more than 500 items")
  else .ok ()

/-- `(*Client).normalizeBulkMessages`, with `i` the running index used in
error messages and for drawing per-message random bytes. -/
def normalizeBulkMessagesFrom (genBytes : Nat → List Nat) (i : Nat) :
    List BulkMessage → Except GoString (List Payload)
  | [] => .ok []
  | m :: rest =>
      if m.To.length = 0 then
        .error (gs "messages[" ++ gs (toString i) ++
          gs "].to must have at least one recipient")
      else
        let item := setKey [] (gs "from") (.vStrMap m.From.ToJSON)
        let item := setKey item (gs "to") (.vStrMapList (emailAddressesToJSON m.To))
        let item := if 0 < m.Cc.length then
            setKey item (gs "cc") (.vStrMapList (emailAddressesToJSON m.Cc)) else item
        let item := if 0 < m.Bcc.length then
            setKey item (gs "bcc") (.vStrMapList (emailAddressesToJSON m.Bcc)) else item
        let item := if 0 < m.ReplyTo.length then
            setKey item (gs "reply_to") (.vStrMapList (emailAddressesToJSON m.ReplyTo)) else item
        let step : Except GoString Payload :=
          match m.ReferenceID with
          | some rid =>
              match validateReferenceID rid with
              | .error e => .error (gs "messages[" ++ gs (toString i) ++
                  gs "].reference_id: " ++ e)
              | .ok _ => .ok (setKey item (gs "reference_id") (.vStr rid))
          | none =>
              .ok (setKey item (gs "reference_id") (.vStr (GetReferenceID (genBytes i))))
        match step with
        | .error e => .error e
        | .ok item =>
        let step : Except GoString Payload :=
          match m.TemplateData with
          | some td =>
              match validateTemplateData td with
              | .error e => .error (gs "messages[" ++ gs (toString i) ++
                  gs "].template_data: " ++ e)
              | .ok _ => .ok (setKey item (gs "template_data") (.vTemplateData td))
          | none => .ok item
        match step with
        | .error e => .error e
        | .ok item =>
            match normalizeBulkMessagesFrom genBytes (i + 1) rest with
            | .error e => .error e
            | .ok out => .ok (item :: out)

/-- `normalizeBulkMessages`, starting at index 0. -/
def normalizeBulkMessages (genBytes : Nat → List Nat)
    (msgs : List BulkMessage) : Except GoString (List Payload) :=
  normalizeBulkMessagesFrom genBytes 0 msgs

/-- The payload assembly of `SendBulkEmails` after its up-front checks
(`client.go` lines 295-359). -/
def buildBulkPayloadRest (genBytes : Nat → List Nat) (data : BulkEmailData) :
    Except GoString Payload :=
  let p := setKey [] (gs "subject") (.vStr data.Subject)
  let p := if data.HTML.isSome then setKey p (gs "html") (.vStrPtr data.HTML) else p
  let p := if data.Plain.isSome then setKey p (gs "plain") (.vStrPtr data.Plain) else p
  let p := if data.TemplateID.isSome then
      setKey p (gs "template_id") (.vIntPtr data.TemplateID) else p
  let p := match data.Tracking with
    | some t => setKey p (gs "tracking") (.vBool t)
    | none => p
  let step : Except GoString Payload :=
    match data.Tags with
    | none => .ok p
    | some m =>
        match validateAssociativeMap m (gs "tags") with
        | .error e => .error e
        | .ok _ => .ok (setKey p (gs "tags") (.vAssocMap m))
  match step with
  | .error e => .error e
  | .ok p =>
  let step : Except GoString Payload :=
    match data.Headers with
    | none => .ok p
    | some m =>
        match validateAssociativeMap m (gs "headers") with
        | .error e => .error e
        | .ok _ => .ok (setKey p (gs "headers") (.vAssocMap m))
  match step with
  | .error e => .error e
  | .ok p =>
  let step : Except GoString Payload :=
    if 0 < data.Attachments.length then
      match validateAttachments data.Attachments with
      | .error e => .error e
      | .ok _ => .ok (setKey p (gs "attachments") (.vAttachments data.Attachments))
    else .ok p
  match step with
  | .error e => .error e
  | .ok p =>
      match normalizeBulkMessages genBytes data.Messages with
      | .error e => .error e
      | .ok msgs => .ok (setKey p (gs "messages") (.vItems msgs))

/-- The payload-construction prefix of `(*Client).SendBulkEmails`
(everything before the network call). -/
def SendBulkEmailsPayload (genBytes : Nat → List Nat)
    (data : BulkEmailData) : Except GoString Payload :=
  match requireSubject data.Subject with
  | .error e => .error e
  | .ok _ =>
  match bulkBodyModeCheck data with
  | .error e => .error e
  | .ok _ =>
  match bulkMessageCountCheck data.Messages with
  | .error e => .error e
  | .ok _ => buildBulkPayloadRest genBytes data

/-! ## Helper lemmas -/

/-- Hexadecimal characters are not white space. -/
lemma isHexChar_not_space (c : Char) (h : isHexChar c = true) :
    goIsSpace c = false := by
  simp only [isHexChar, decide_eq_true_eq] at h
  simp only [goIsSpace, decide_eq_false_iff_not]
  omega

/-- Dropping while a predicate that holds nowhere drops nothing. -/
lemma dropWhile_eq_self_of_none {p : Char → Bool} {s : GoString}
    (h : ∀ c ∈ s, p c = false) : s.dropWhile p = s := by
  cases s with
  | nil => rfl
  | cons a l =>
      simp only [List.dropWhile_cons, h a (List.mem_cons_self a l)]
      simp

/-- Trimming a string none of whose characters is white space changes
nothing. -/
lemma trimSpace_eq_self_of_none {s : GoString}
    (h : ∀ c ∈ s, goIsSpace c = false) : trimSpace s = s := by
  unfold trimSpace
  rw [dropWhile_eq_self_of_none h,
    dropWhile_eq_self_of_none (fun c hc => h c (List.mem_reverse.mp hc)),
    List.reverse_reverse]

/-- A 24-hex-character string has no surrounding whitespace to trim. -/
lemma trimSpace_eq_self_of_matchRefID {s : GoString}
    (h : matchRefID s = true) : trimSpace s = s := by
  apply trimSpace_eq_self_of_none
  intro c hc
  simp only [matchRefID, Bool.and_eq_true, List.all_eq_true] at h
  exact isHexChar_not_space c (h.2 c hc)

/-- Looking up the key just set returns the set value. -/
lemma lookupKey_setKey_self (m : Payload) (k : GoString) (v : PayloadValue) :
    lookupKey (setKey m k v) k = some v := by
  induction m with
  | nil => simp [setKey, lookupKey]
  | cons hd tl ih =>
      obtain ⟨k', v'⟩ := hd
      by_cases hk : k' = k
      · simp [setKey, lookupKey, hk]
      · simp [setKey, lookupKey, hk, ih]

/-- Setting one key leaves lookups of other keys unchanged. -/
lemma lookupKey_setKey_ne (m : Payload) {k k' : GoString} (v : PayloadValue)
    (h : k' ≠ k) : lookupKey (setKey m k v) k' = lookupKey m k' := by
  induction m with
  | nil =>
      simp only [setKey, lookupKey]
      rw [if_neg (fun he => h he.symm)]
  | cons hd tl ih =>
      obtain ⟨k'', v''⟩ := hd
      simp only [setKey]
      by_cases hk : k'' = k
      · subst hk
        rw [if_pos rfl]
        simp only [lookupKey]
        rw [if_neg (fun he => h he.symm), if_neg (fun he => h he.symm)]
      · rw [if_neg hk]
        simp only [lookupKey]
        by_cases hk' : k'' = k'
        · rw [if_pos hk', if_pos hk']
        · rw [if_neg hk', if_neg hk', ih]

/-- Hex digits of values below 16 are hexadecimal characters. -/
lemma isHexChar_hexDigit : ∀ n, n < 16 → isHexChar (hexDigit n) = true := by
  decide

/-- `hexEncodeToString` doubles the length. -/
lemma hexEncodeToString_length (b : List Nat) :
    (hexEncodeToString b).length = 2 * b.length := by
  induction b with
  | nil => rfl
  | cons x l ih =>
      simp only [hexEncodeToString, List.flatMap_cons] at ih ⊢
      simp [ih]
      omega

/-- Every character of a hex encoding of genuine bytes is hexadecimal. -/
lemma hexEncodeToString_all_hex (b : List Nat) (hb : ∀ x ∈ b, x < 256) :
    (hexEncodeToString b).all isHexChar = true := by
  induction b with
  | nil => rfl
  | cons x l ih =>
      have hx : x < 256 := hb x (List.mem_cons_self x l)
      have h1 : x / 16 < 16 := by omega
      have h2 : x % 16 < 16 := by omega
      have ihl := ih (fun y hy => hb y (List.mem_cons_of_mem x hy))
      simp only [hexEncodeToString, List.flatMap_cons, List.all_append,
        List.all_cons, List.all_nil, Bool.and_eq_true] at ihl ⊢
      exact ⟨⟨isHexChar_hexDigit _ h1, isHexChar_hexDigit _ h2, trivial⟩, ihl⟩

/-- A hex encoding of 12 genuine bytes matches `^[0-9a-fA-F]{24}$`. -/
lemma matchRefID_hexEncode (b : List Nat) (hl : b.length = 12)
    (hb : ∀ x ∈ b, x < 256) : matchRefID (hexEncodeToString b) = true := by
  simp only [matchRefID, Bool.and_eq_true, decide_eq_true_eq]
  exact ⟨by rw [hexEncodeToString_length, hl], hexEncodeToString_all_hex b hb⟩

/-- Decoding inverts the alphabet on 6-bit values. -/
lemma b64Index_b64Char : ∀ n, n < 64 → b64Index (b64Char n) = some n := by
  decide

/-- Alphabet characters are not the padding character. -/
lemma b64Char_ne_pad : ∀ n, n < 64 → b64Char n ≠ '=' := by
  decide

/-- No output character of the encoder is a newline or carriage return. -/
lemma b64Char_not_nl (n : Nat) : ¬(b64Char n = '\n' ∨ b64Char n = '\r') := by
  by_cases h : n < 64
  · exact (by decide : ∀ m, m < 64 → ¬(b64Char m = '\n' ∨ b64Char m = '\r')) n h
  · have he : b64Char n = '=' := by
      unfold b64Char
      apply List.getD_eq_default
      have : b64Alphabet.length = 64 := by decide
      omega
    rw [he]
    decide

/-- Every character produced by the encoder is an alphabet character or
the padding character. -/
lemma mem_base64EncodeToString (b : List Nat) :
    ∀ c ∈ base64EncodeToString b, (∃ n, c = b64Char n) ∨ c = '=' := by
  induction b using base64EncodeToString.induct with
  | case1 b0 b1 b2 rest ih =>
      intro c hc
      simp only [base64EncodeToString, List.mem_cons] at hc
      rcases hc with h | h | h | h | h
      · exact Or.inl ⟨_, h⟩
      · exact Or.inl ⟨_, h⟩
      · exact Or.inl ⟨_, h⟩
      · exact Or.inl ⟨_, h⟩
      · exact ih c h
  | case2 b0 b1 =>
      intro c hc
      simp only [base64EncodeToString, List.mem_cons, List.not_mem_nil] at hc
      rcases hc with h | h | h | h | h
      · exact Or.inl ⟨_, h⟩
      · exact Or.inl ⟨_, h⟩
      · exact Or.inl ⟨_, h⟩
      · exact Or.inr h
      · exact absurd h (by simp)
  | case3 b0 =>
      intro c hc
      simp only [base64EncodeToString, List.mem_cons, List.not_mem_nil] at hc
      rcases hc with h | h | h | h | h
      · exact Or.inl ⟨_, h⟩
      · exact Or.inl ⟨_, h⟩
      · exact Or.inr h
      · exact Or.inr h
      · exact absurd h (by simp)
  | case4 =>
      intro c hc
      simp [base64EncodeToString] at hc

/-- The newline filter of the decoder leaves encoder output unchanged. -/
lemma filter_base64EncodeToString (b : List Nat) :
    (base64EncodeToString b).filter (fun c => !(c = '\n' ∨ c = '\r')) =
      base64EncodeToString b := by
  apply List.filter_eq_self.mpr
  intro c hc
  rcases mem_base64EncodeToString b c hc with ⟨n, rfl⟩ | rfl
  · simpa using b64Char_not_nl n
  · decide

/-- Decoding the padded quanta of an encoding of genuine bytes recovers
the bytes. -/
lemma base64DecodeQuanta_encode (b : List Nat) (hb : ∀ x ∈ b, x < 256) :
    base64DecodeQuanta (base64EncodeToString b) = some b := by
  induction b using base64EncodeToString.induct with
  | case1 b0 b1 b2 rest ih =>
      have hb0 : b0 < 256 := hb b0 (by simp)
      have hb1 : b1 < 256 := hb b1 (by simp)
      have hb2 : b2 < 256 := hb b2 (by simp)
      have e0 := b64Index_b64Char (b0 / 4) (by omega)
      have e1 := b64Index_b64Char ((b0 % 4) * 16 + b1 / 16) (by omega)
      have e2 := b64Index_b64Char ((b1 % 16) * 4 + b2 / 64) (by omega)
      have e3 := b64Index_b64Char (b2 % 64) (by omega)
      have ne2 := b64Char_ne_pad ((b1 % 16) * 4 + b2 / 64) (by omega)
      have ne3 := b64Char_ne_pad (b2 % 64) (by omega)
      have ihr := ih (fun x hx => hb x (by simp [hx]))
      simp only [base64EncodeToString, base64DecodeQuanta, e0, e1, e2, e3,
        if_neg ne2, if_neg ne3, ihr, Option.map_some]
      have q0 : b0 / 4 * 4 + ((b0 % 4) * 16 + b1 / 16) / 16 = b0 := by omega
      have q1 : ((b0 % 4) * 16 + b1 / 16) % 16 * 16 +
          ((b1 % 16) * 4 + b2 / 64) / 4 = b1 := by omega
      have q2 : ((b1 % 16) * 4 + b2 / 64) % 4 * 64 + b2 % 64 = b2 := by omega
      rw [q0, q1, q2]
      rfl
  | case2 b0 b1 =>
      have hb0 : b0 < 256 := hb b0 (by simp)
      have hb1 : b1 < 256 := hb b1 (by simp)
      have e0 := b64Index_b64Char (b0 / 4) (by omega)
      have e1 := b64Index_b64Char ((b0 % 4) * 16 + b1 / 16) (by omega)
      have e2 := b64Index_b64Char ((b1 % 16) * 4) (by omega)
      have ne2 := b64Char_ne_pad ((b1 % 16) * 4) (by omega)
      simp only [base64EncodeToString, base64DecodeQuanta, e0, e1, e2,
        if_neg ne2, if_pos rfl]
      have q0 : b0 / 4 * 4 + ((b0 % 4) * 16 + b1 / 16) / 16 = b0 := by omega
      have q1 : ((b0 % 4) * 16 + b1 / 16) % 16 * 16 + (b1 % 16) * 4 / 4 = b1 := by
        omega
      rw [q0, q1]
      simp
  | case3 b0 =>
      have hb0 : b0 < 256 := hb b0 (by simp)
      have e0 := b64Index_b64Char (b0 / 4) (by omega)
      have e1 := b64Index_b64Char ((b0 % 4) * 16) (by omega)
      simp only [base64EncodeToString, base64DecodeQuanta, e0, e1, if_pos rfl,
        if_pos (⟨rfl, rfl⟩ : '=' = '=' ∧ ([] : GoString) = [])]
      have q0 : b0 / 4 * 4 + (b0 % 4) * 16 / 16 = b0 := by omega
      rw [q0]
      simp
  | case4 => rfl

/-- Round trip: Go-decoding a Go base64 encoding of genuine bytes yields
the bytes back. -/
lemma base64DecodeString_encode (b : List Nat) (hb : ∀ x ∈ b, x < 256) :
    base64DecodeString (base64EncodeToString b) = some b := by
  unfold base64DecodeString
  rw [filter_base64EncodeToString, base64DecodeQuanta_encode b hb]

/-! ## Claim theorems -/

/-- C5: every string returned by `GetReferenceID` — the 12 random bytes
coming either from the secure source or from the fallback, with every
possible byte value — matches `^[0-9a-fA-F]{24}$`. -/
theorem C5_getReferenceID_always_24_hex (b : List Nat) (hl : b.length = 12)
    (hb : ∀ x ∈ b, x < 256) : matchRefID (GetReferenceID b) = true :=
  matchRefID_hexEncode b hl hb

/-- Witness for C5 at a concrete byte buffer. -/
theorem C5_getReferenceID_always_24_hex_witness :
    matchRefID (GetReferenceID (List.replicate 12 171)) = true :=
  C5_getReferenceID_always_24_hex (List.replicate 12 171) (by decide) (by decide)

set_option maxRecDepth 8192 in
/-- C8: `requireSubject` fails exactly when the subject is blank after
trimming or exceeds 255 runes; it accepts every non-blank 255-rune
string (multi-byte runes counting one each), rejects every 256-rune
string, and rejects the empty string. -/
theorem C8_requireSubject_spec :
    (∀ s : GoString, (∃ e, requireSubject s = .error e) ↔
      (trimSpace s = [] ∨ 255 < runeLen s)) ∧
    (∀ s : GoString, runeLen s = 255 → trimSpace s ≠ [] →
      requireSubject s = .ok ()) ∧
    (∀ s : GoString, runeLen s = 256 → ∃ e, requireSubject s = .error e) ∧
    requireSubject (List.replicate 255 'é') = .ok () ∧
    (∃ e, requireSubject ([] : GoString) = .error e) := by
  refine ⟨?_, ?_, ?_, ?_, ?_⟩
  · intro s
    by_cases h1 : trimSpace s = []
    · simp [requireSubject, h1]
    · by_cases h2 : 255 < runeLen s <;> simp [requireSubject, h1, h2]
  · intro s h255 hne
    simp [requireSubject, hne, h255]
  · intro s h256
    by_cases h1 : trimSpace s = [] <;> simp [requireSubject, h1, h256]
  · rfl
  · exact ⟨_, rfl⟩

set_option maxRecDepth 8192 in
/-- Witness for C8 at a concrete 255-rune subject. -/
theorem C8_requireSubject_spec_witness :
    requireSubject (List.replicate 255 'a') = .ok () :=
  C8_requireSubject_spec.2.1 (List.replicate 255 'a') (by simp [runeLen])
    (by decide)

/-- C9: `validateReferenceID` fails exactly when the string starts or
ends with white space or is not exactly 24 hexadecimal characters; it
rejects `"abc"` and `" 0123456789abcdef01234567"` and accepts
`"0123456789abcdef01234567"`. -/
theorem C9_validateReferenceID_spec :
    (∀ s : GoString, (∃ e, validateReferenceID s = .error e) ↔
      ((∃ c, s.head? = some c ∧ goIsSpace c = true) ∨
       (∃ c, s.getLast? = some c ∧ goIsSpace c = true) ∨
       matchRefID s = false)) ∧
    (∃ e, validateReferenceID (gs "abc") = .error e) ∧
    (∃ e, validateReferenceID (gs " 0123456789abcdef01234567") = .error e) ∧
    validateReferenceID (gs "0123456789abcdef01234567") = .ok () := by
  refine ⟨?_, ⟨_, rfl⟩, ⟨_, rfl⟩, rfl⟩
  intro s
  by_cases hm : matchRefID s = true
  · have ht : trimSpace s = s := trimSpace_eq_self_of_matchRefID hm
    have hall : ∀ c ∈ s, isHexChar c = true := by
      have h2 := hm
      simp only [matchRefID, Bool.and_eq_true, List.all_eq_true] at h2
      exact h2.2
    constructor
    · intro ⟨e, he⟩
      rw [validateReferenceID, if_neg (by rw [ht]; exact fun h => h rfl),
        if_neg (by simp [hm])] at he
      exact absurd he (by simp)
    · rintro (⟨c, hc, hsp⟩ | ⟨c, hc, hsp⟩ | h)
      · have hmem : c ∈ s := List.mem_of_mem_head? (Option.mem_def.mpr hc)
        exact absurd hsp (by simp [isHexChar_not_space c (hall c hmem)])
      · have hmem : c ∈ s := List.mem_of_mem_getLast? (Option.mem_def.mpr hc)
        exact absurd hsp (by simp [isHexChar_not_space c (hall c hmem)])
      · exact absurd hm (by simp [h])
  · rw [Bool.not_eq_true] at hm
    constructor
    · intro _
      exact Or.inr (Or.inr hm)
    · intro _
      rw [validateReferenceID]
      by_cases hne : s = trimSpace s
      · rw [if_neg (not_not_intro hne), if_pos hm]
        exact ⟨_, rfl⟩
      · rw [if_pos hne]
        exact ⟨_, rfl⟩

/-- C2 counterexample: the empty string is valid base64 (it decodes to
the empty byte sequence), yet `AttachmentFromBase64Content` rejects it,
so validity of the base64 text alone does not guarantee success. -/
theorem C2_counterexample :
    base64DecodeString (gs "") = some [] ∧
    AttachmentFromBase64Content (fun _ => []) (gs "b64.txt") (gs "")
      (gs "text/plain") false =
      .error (gs "content must be a non-empty base64 string") :=
  ⟨rfl, rfl⟩

/-- C2 (amended): `AttachmentFromBase64Content` fails whenever the
content string is not valid base64; when the content is valid base64
and non-blank and the file name is non-blank, it succeeds and the
returned attachment's `Content` equals the input unchanged. -/
theorem C2_fromBase64_spec (sniff : List Nat → GoString)
    (fileName contentB64 contentType : GoString) (inl : Bool) :
    (base64DecodeString contentB64 = none →
      AttachmentFromBase64Content sniff fileName contentB64 contentType inl =
        .error (gs "invalid base64 content provided")) ∧
    (∀ raw, base64DecodeString contentB64 = some raw →
      trimSpace fileName ≠ [] → trimSpace contentB64 ≠ [] →
      ∃ a, AttachmentFromBase64Content sniff fileName contentB64 contentType inl
          = .ok a ∧ a.Content = contentB64) := by
  constructor
  · intro h
    simp [AttachmentFromBase64Content, h]
  · intro raw hr hfn hcb
    unfold AttachmentFromBase64Content NewAttachment
    rw [hr]
    simp only [if_neg hfn, if_neg hcb, hr]
    exact ⟨_, rfl, rfl⟩

/-- Witness for C2 at a concrete valid base64 input. -/
theorem C2_fromBase64_spec_witness :
    ∃ a, AttachmentFromBase64Content (fun _ => []) (gs "b64.txt") (gs "aGk=")
      (gs "text/plain") false = .ok a ∧ a.Content = gs "aGk=" :=
  (C2_fromBase64_spec (fun _ => []) (gs "b64.txt") (gs "aGk=")
    (gs "text/plain") false).2 [104, 105] rfl (by decide) (by decide)

/-- C3 counterexample: the send-time `validate` accepts an attachment
whose content is not valid base64 ("!!!"), and so does the request
builder's attachment loop, contradicting the claimed base64 check. -/
theorem C3_counterexample :
    Attachment.validate ⟨gs "f", gs "text/plain", gs "!!!", false⟩ = .ok () ∧
    validateAttachments [⟨gs "f", gs "text/plain", gs "!!!", false⟩] = .ok () ∧
    base64DecodeString (gs "!!!") = none :=
  ⟨rfl, rfl, rfl⟩

/-- C3 (amended): the send-time validation fails exactly when the file
name, the content, or the content type is blank after trimming; base64
validity of the content is not checked. -/
theorem C3_validate_spec (a : Attachment) :
    a.validate = .ok () ↔
      (trimSpace a.FileName ≠ [] ∧ trimSpace a.Content ≠ [] ∧
       trimSpace a.ContentType ≠ []) := by
  unfold Attachment.validate
  by_cases h1 : trimSpace a.FileName = [] <;>
    by_cases h2 : trimSpace a.Content = [] <;>
      by_cases h3 : trimSpace a.ContentType = [] <;> simp [h1, h2, h3]

/-- C4: for every file name that is non-blank after trimming and every
byte sequence (including the empty one), `AttachmentFromContent`
succeeds and base64-decoding the returned `Content` recovers exactly
the original bytes. -/
theorem C4_fromContent_roundtrip (sniff : List Nat → GoString)
    (fileName : GoString) (content : List Nat) (contentType : GoString)
    (inl : Bool) (hfn : trimSpace fileName ≠ [])
    (hc : ∀ x ∈ content, x < 256) :
    ∃ a, AttachmentFromContent sniff fileName content contentType inl = .ok a ∧
      base64DecodeString a.Content = some content := by
  unfold AttachmentFromContent
  rw [if_neg hfn]
  exact ⟨_, rfl, base64DecodeString_encode content hc⟩

/-- Witness for C4 at concrete bytes. -/
theorem C4_fromContent_roundtrip_witness :
    ∃ a, AttachmentFromContent (fun _ => []) (gs "hello.txt")
      [72, 101, 108] (gs "text/plain") false = .ok a ∧
      base64DecodeString a.Content = some [72, 101, 108] :=
  C4_fromContent_roundtrip (fun _ => []) (gs "hello.txt") [72, 101, 108]
    (gs "text/plain") false (by decide) (by decide)

/-- C6: `SendBulkEmails` fails before any network call when no body mode
is set, and when a template id is combined with html or plain; a request
with exactly one body mode passes both body-mode checks. -/
theorem C6_bulk_body_mode (genBytes : Nat → List Nat) (data : BulkEmailData) :
    (data.HTML = none ∧ data.Plain = none ∧ data.TemplateID = none →
      ∃ e, SendBulkEmailsPayload genBytes data = .error e) ∧
    (data.TemplateID ≠ none ∧ (data.HTML ≠ none ∨ data.Plain ≠ none) →
      ∃ e, SendBulkEmailsPayload genBytes data = .error e) ∧
    ((data.TemplateID = none ∧ (data.HTML ≠ none ∨ data.Plain ≠ none)) ∨
      (data.TemplateID ≠ none ∧ data.HTML = none ∧ data.Plain = none) →
      bulkBodyModeCheck data = .ok ()) := by
  refine ⟨?_, ?_, ?_⟩
  · intro ⟨h1, h2, h3⟩
    cases hs : requireSubject data.Subject with
    | error e => exact ⟨e, by simp [SendBulkEmailsPayload, hs]⟩
    | ok u =>
        have hbc : bulkBodyModeCheck data =
            .error (gs "you must provide either html, plain, or template_id") := by
          simp [bulkBodyModeCheck, h1, h2, h3]
        exact ⟨gs "you must provide either html, plain, or template_id",
          by simp [SendBulkEmailsPayload, hs, hbc]⟩
  · intro ⟨h1, h2⟩
    cases hs : requireSubject data.Subject with
    | error e => exact ⟨e, by simp [SendBulkEmailsPayload, hs]⟩
    | ok u =>
        have hbc : bulkBodyModeCheck data =
            .error (gs "template_id cannot be combined with html or plain") := by
          have ht : data.TemplateID.isSome = true := Option.isSome_iff_ne_none.mpr h1
          have hhp : data.HTML.isSome = true ∨ data.Plain.isSome = true := by
            rcases h2 with h | h
            · exact Or.inl (Option.isSome_iff_ne_none.mpr h)
            · exact Or.inr (Option.isSome_iff_ne_none.mpr h)
          rcases hhp with h | h <;> simp [bulkBodyModeCheck, ht, h, h1]
        exact ⟨gs "template_id cannot be combined with html or plain",
          by simp [SendBulkEmailsPayload, hs, hbc]⟩
  · intro h
    rcases h with ⟨ht, hp⟩ | ⟨ht, hh, hp⟩
    · have ht' : data.TemplateID.isSome = false := by simp [ht]
      rcases hp with h | h
      · have : data.HTML.isSome = true := Option.isSome_iff_ne_none.mpr h
        simp [bulkBodyModeCheck, ht, ht', this]
      · have : data.Plain.isSome = true := Option.isSome_iff_ne_none.mpr h
        simp [bulkBodyModeCheck, ht, ht', this]
    · have ht' : data.TemplateID.isSome = true := Option.isSome_iff_ne_none.mpr ht
      simp [bulkBodyModeCheck, ht', hh, hp]

/-- Witness for C6 at a concrete body-less bulk request. -/
theorem C6_bulk_body_mode_witness :
    ∃ e, SendBulkEmailsPayload (fun _ => List.replicate 12 0)
      ⟨gs "Hi", none, none, none, none, none, none, [], []⟩ = .error e :=
  (C6_bulk_body_mode (fun _ => List.replicate 12 0)
    ⟨gs "Hi", none, none, none, none, none, none, [], []⟩).1 ⟨rfl, rfl, rfl⟩

/-- C7: `SendBulkEmails` fails before any network call when the message
list is empty or longer than 500; a list of exactly 500 messages passes
the count check. -/
theorem C7_bulk_message_count (genBytes : Nat → List Nat)
    (data : BulkEmailData) :
    (data.Messages.length = 0 ∨ 500 < data.Messages.length →
      ∃ e, SendBulkEmailsPayload genBytes data = .error e) ∧
    (data.Messages.length = 500 →
      bulkMessageCountCheck data.Messages = .ok ()) := by
  constructor
  · intro h
    cases hs : requireSubject data.Subject with
    | error e => exact ⟨e, by simp [SendBulkEmailsPayload, hs]⟩
    | ok u =>
        cases hb : bulkBodyModeCheck data with
        | error e => exact ⟨e, by simp [SendBulkEmailsPayload, hs, hb]⟩
        | ok v =>
            rcases h with h0 | h500
            · have hc : bulkMessageCountCheck data.Messages =
                  .error (gs "messages must be a non-empty array") := by
                simp [bulkMessageCountCheck, h0]
              exact ⟨gs "messages must be a non-empty array",
                by simp [SendBulkEmailsPayload, hs, hb, hc]⟩
            · have hne : ¬data.Messages.length = 0 := by omega
              have hc : bulkMessageCountCheck data.Messages =
                  .error (gs "messages cannot contain more than 500 items") := by
                simp [bulkMessageCountCheck, hne, h500]
              exact ⟨gs "messages cannot contain more than 500 items",
                by simp [SendBulkEmailsPayload, hs, hb, hc]⟩
  · intro h
    simp [bulkMessageCountCheck, h]

/-- Witness for C7 at a concrete empty message list. -/
theorem C7_bulk_message_count_witness :
    ∃ e, SendBulkEmailsPayload (fun _ => List.replicate 12 0)
      ⟨gs "Hi", some (gs "x"), none, none, none, none, none, [], []⟩ =
      .error e :=
  (C7_bulk_message_count (fun _ => List.replicate 12 0)
    ⟨gs "Hi", some (gs "x"), none, none, none, none, none, [], []⟩).1
    (Or.inl rfl)

/-- C10: every payload successfully built by `SendBasicEmail` carries
both the `html` and the `plain` key, each holding the request's body
pointer — a `nil` body is stored as a null value, not omitted. -/
theorem C10_basic_payload_has_html_and_plain (randBytes : List Nat)
    (data : BasicEmailData) (p : Payload)
    (h : SendBasicEmailPayload randBytes data = .ok p) :
    lookupKey p (gs "html") = some (.vStrPtr data.HTML) ∧
    lookupKey p (gs "plain") = some (.vStrPtr data.Plain) := by
  unfold SendBasicEmailPayload at h
  revert h
  cases hb : buildBasePayload randBytes
      { Subject := data.Subject, From := data.From, To := data.To,
        Cc := data.Cc, Bcc := data.Bcc, ReplyTo := data.ReplyTo,
        Tracking := data.Tracking, Tags := data.Tags, Headers := data.Headers,
        Attachments := data.Attachments, ScheduledAt := data.ScheduledAt,
        ReferenceID := data.ReferenceID } with
  | error e => intro h; exact absurd h (by simp)
  | ok base =>
      intro h
      dsimp only at h
      by_cases hcond : data.HTML = none ∧ data.Plain = none
      · rw [if_pos hcond] at h
        exact absurd h (by simp)
      · rw [if_neg hcond] at h
        have hp : setKey (setKey base (gs "html") (.vStrPtr data.HTML))
            (gs "plain") (.vStrPtr data.Plain) = p := by
          injection h
        rw [← hp]
        refine ⟨?_, lookupKey_setKey_self _ _ _⟩
        rw [lookupKey_setKey_ne _ _ (by decide), lookupKey_setKey_self]

/-- Witness for C10 at a concrete html-only request. -/
theorem C10_basic_payload_has_html_and_plain_witness :
    lookupKey ((SendBasicEmailPayload (List.replicate 12 0)
        ⟨⟨gs "a@b.com", none⟩, [⟨gs "a@b.com", none⟩], [], [], [], gs "Hi",
          some (gs "x"), none, none, none, none, [], none, none⟩).toOption.getD
        []) (gs "html") = some (.vStrPtr (some (gs "x"))) ∧
    lookupKey ((SendBasicEmailPayload (List.replicate 12 0)
        ⟨⟨gs "a@b.com", none⟩, [⟨gs "a@b.com", none⟩], [], [], [], gs "Hi",
          some (gs "x"), none, none, none, none, [], none, none⟩).toOption.getD
        []) (gs "plain") = some (.vStrPtr none) :=
  C10_basic_payload_has_html_and_plain (List.replicate 12 0)
    ⟨⟨gs "a@b.com", none⟩, [⟨gs "a@b.com", none⟩], [], [], [], gs "Hi",
      some (gs "x"), none, none, none, none, [], none, none⟩ _ rfl

/-- C1: for a basic-email request with a single recipient, subject
"Hi", an html body, and every other optional field absent, the built
payload contains `subject`, `from`, `to` (a list of address objects),
`html`, and an auto-generated 24-hex-character `reference_id`, and
contains none of `cc`, `bcc`, `tags`, `headers`, `attachments`. -/
theorem C1_basic_email_payload (f a : EmailAddress) (html : GoString)
    (pl : Option GoString) (b : List Nat) (hl : b.length = 12)
    (hb : ∀ x ∈ b, x < 256) :
    ∃ p, SendBasicEmailPayload b
        ⟨f, [a], [], [], [], gs "Hi", some html, pl, none, none, none, [],
          none, none⟩ = .ok p ∧
      lookupKey p (gs "subject") = some (.vStr (gs "Hi")) ∧
      lookupKey p (gs "from") = some (.vStrMap f.ToJSON) ∧
      lookupKey p (gs "to") = some (.vStrMapList [a.ToJSON]) ∧
      lookupKey p (gs "html") = some (.vStrPtr (some html)) ∧
      (∃ r, lookupKey p (gs "reference_id") = some (.vStr r) ∧
        matchRefID r = true) ∧
      hasKey p (gs "cc") = false ∧
      hasKey p (gs "bcc") = false ∧
      hasKey p (gs "tags") = false ∧
      hasKey p (gs "headers") = false ∧
      hasKey p (gs "attachments") = false := by
  refine ⟨_, rfl, rfl, rfl, rfl, rfl,
    ⟨GetReferenceID b, rfl, matchRefID_hexEncode b hl hb⟩,
    rfl, rfl, rfl, rfl, rfl⟩

/-- Witness for C1 at concrete addresses, body and random bytes. -/
theorem C1_basic_email_payload_witness :
    ∃ p, SendBasicEmailPayload (List.replicate 12 0)
        ⟨⟨gs "s@e.com", none⟩, [⟨gs "a@b.com", none⟩], [], [], [], gs "Hi",
          some (gs "<p>x</p>"), none, none, none, none, [], none, none⟩ =
        .ok p ∧
      lookupKey p (gs "subject") = some (.vStr (gs "Hi")) ∧
      lookupKey p (gs "from") =
        some (.vStrMap (EmailAddress.ToJSON ⟨gs "s@e.com", none⟩)) ∧
      lookupKey p (gs "to") =
        some (.vStrMapList [EmailAddress.ToJSON ⟨gs "a@b.com", none⟩]) ∧
      lookupKey p (gs "html") = some (.vStrPtr (some (gs "<p>x</p>"))) ∧
      (∃ r, lookupKey p (gs "reference_id") = some (.vStr r) ∧
        matchRefID r = true) ∧
      hasKey p (gs "cc") = false ∧
      hasKey p (gs "bcc") = false ∧
      hasKey p (gs "tags") = false ∧
      hasKey p (gs "headers") = false ∧
      hasKey p (gs "attachments") = false :=
  C1_basic_email_payload ⟨gs "s@e.com", none⟩ ⟨gs "a@b.com", none⟩
    (gs "<p>x</p>") none (List.replicate 12 0) (by decide) (by decide)

end Maileroo
